import Mathlib

/-!
Shallow embedding of the `server-events-rs` client core, checked against its
natural-language specification.

The embedding covers:
* `src/state.rs` — `MuteState`, `ConfigFile`, `AppState`, `MutableAppState`
  (construction, the read/write accessors and disk synchronization);
* `src/gui/app.rs` — `App::handle_tray_event` and the `UserEvent` branch of
  `App::run`;
* `src/gui/tray_icon.rs` — the deterministic part of `TrayIcon::new`
  (cache-directory creation and menu construction) and
  `TrayIconHandle::get_id_of_item`.

Filesystem state is made explicit: a `Disk` records the set of existing
directories and the parsed contents of files, plus two environment flags that
model whether directory creation or file writing would fail with an I/O
error.  TOML (de)serialization performed by the `serializable` crate is
modelled as the identity on parsed `ConfigFile` values: a file on disk is
either a well-formed document (`FileData.valid`), a document that fails to
parse (`FileData.corrupt`) or a file whose open fails with an error kind
other than `NotFound` (`FileData.unreadable`).
-/

/-- Decidable equality for `Except`, used so that witnesses can be checked
by evaluation. -/
instance {ε α : Type} [DecidableEq ε] [DecidableEq α] : DecidableEq (Except ε α) := fun a b =>
  match a, b with
  | Except.error x, Except.error y =>
      if h : x = y then isTrue (by rw [h]) else isFalse (by intro hh; cases hh; exact h rfl)
  | Except.error _, Except.ok _ => isFalse (by intro hh; cases hh)
  | Except.ok _, Except.error _ => isFalse (by intro hh; cases hh)
  | Except.ok x, Except.ok y =>
      if h : x = y then isTrue (by rw [h]) else isFalse (by intro hh; cases hh; exact h rfl)

/-- A filesystem path, as its list of components (`PathBuf`). -/
abbrev FsPath := List String

/-- A platform menu-item identifier (`tray_icon::menu::MenuId` wraps a string). -/
abbrev MenuId := String

/-- `PathBuf::join`: append one component. -/
def FsPath.join (p : FsPath) (s : String) : FsPath := p ++ [s]

/-- `FsPath::parent`: drop the last component; `none` when there is none. -/
def FsPath.parent (p : FsPath) : Option FsPath :=
  if p = [] then none else some p.dropLast

/-- `MuteState` from `src/state.rs`.  The `After` timestamp
(`DateTime<Local>`) is modelled as an integer. -/
inductive MuteState where
  | Unmuted
  | After (timestamp : Int)
  | NextBoot
  | Manual
deriving DecidableEq, Repr

/-- `MuteState::is_muted`: true for all variants except `Unmuted`. -/
def MuteState.is_muted (s : MuteState) : Bool :=
  match s with
  | MuteState.Unmuted => false
  | _ => true

/-- `MuteState::is_unmuted`: true only for `Unmuted`. -/
def MuteState.is_unmuted (s : MuteState) : Bool :=
  match s with
  | MuteState.Unmuted => true
  | _ => false

/-- The load-time normalization `NextBoot -> Unmuted`, as a standalone
function for use in theorem statements. -/
def MuteState.normalizeNextBoot (m : MuteState) : MuteState :=
  if m = MuteState.NextBoot then MuteState.Unmuted else m

/-- `ConfigFile` from `src/state.rs`: the on-disk projection of the state. -/
structure ConfigFile where
  muted : MuteState
deriving DecidableEq, Repr

/-- `impl Default for ConfigFile`. -/
def ConfigFile.default : ConfigFile := { muted := MuteState.Unmuted }

/-- What a file on the model disk can hold. -/
inductive FileData where
  | valid (config : ConfigFile)
  | corrupt
  | unreadable
deriving DecidableEq, Repr

/-- The model filesystem.  `createDirFails` / `writeFails` are environment
flags saying whether `fs::create_dir_all` / the serialized write would fail
with an I/O error. -/
structure Disk where
  dirs : List FsPath
  files : List (FsPath × FileData)
  createDirFails : Bool
  writeFails : Bool
deriving DecidableEq, Repr

/-- Look a path up in the file table. -/
def lookupFile : List (FsPath × FileData) → FsPath → Option FileData
  | [], _ => none
  | e :: rest, p => if e.1 = p then some e.2 else lookupFile rest p

/-- Overwrite (or insert) a file at a path. -/
def setFile : List (FsPath × FileData) → FsPath → FileData → List (FsPath × FileData)
  | [], p, fd => [(p, fd)]
  | e :: rest, p, fd => if e.1 = p then (p, fd) :: rest else e :: setFile rest p fd

/-- `fs::create_dir_all`: the directory and all its ancestors come to exist. -/
def Disk.createDirAll (disk : Disk) (p : FsPath) : Disk :=
  { disk with dirs := (List.range p.length).map (fun n => p.take (n + 1)) ++ disk.dirs }

/-- `serializable::Error<TomlError>` (the variants this code can observe).
`FileOpen` carries whether the I/O error kind is `NotFound`. -/
inductive SerError where
  | FileOpen (path : FsPath) (notFound : Bool)
  | Deserialize (path : FsPath)
deriving DecidableEq, Repr

/-- `state::Error` from `src/state.rs`. -/
inductive StateError where
  | ConfigDirCreate (path : FsPath)
  | ConfigLoad (path : FsPath) (err : SerError)
  | ConfigWrite (path : FsPath)
deriving DecidableEq, Repr

/-- `ConfigFile::from_path` (via the `serializable` crate): read and parse
the file at `path` on the model disk. -/
def ConfigFile.from_path (disk : Disk) (path : FsPath) : Except SerError ConfigFile :=
  match lookupFile disk.files path with
  | none => Except.error (SerError.FileOpen path true)
  | some FileData.unreadable => Except.error (SerError.FileOpen path false)
  | some FileData.corrupt => Except.error (SerError.Deserialize path)
  | some (FileData.valid config) => Except.ok config

/-- `MutableAppState` from `src/state.rs`. -/
structure MutableAppState where
  muted : MuteState
deriving DecidableEq, Repr

/-- `config.to_path_pretty(config_path)` inside `MutableAppState::sync`:
serialize the whole config document to the path, or fail with
`ConfigWrite`. -/
def Disk.writeConfig (disk : Disk) (path : FsPath) (config : ConfigFile) :
    Disk × Except StateError Unit :=
  if disk.writeFails then (disk, Except.error (StateError.ConfigWrite path))
  else ({ disk with files := setFile disk.files path (FileData.valid config) }, Except.ok ())

/-- `MutableAppState::sync`: build the `ConfigFile`, create the parent
directory if it does not exist (failing with `ConfigDirCreate`), then write
the whole document (failing with `ConfigWrite`). -/
def MutableAppState.sync (s : MutableAppState) (disk : Disk) (config_path : FsPath) :
    Disk × Except StateError Unit :=
  let config : ConfigFile := { muted := s.muted }
  match config_path.parent with
  | some parent =>
      if parent ∈ disk.dirs then
        disk.writeConfig config_path config
      else if disk.createDirFails then
        (disk, Except.error (StateError.ConfigDirCreate parent))
      else
        (disk.createDirAll parent).writeConfig config_path config
  | none => disk.writeConfig config_path config

/-- The `match ConfigFile::from_path(..)` block of `MutableAppState::new`:
a missing file (open error of kind `NotFound`) falls back to the default
config; every other failure becomes `ConfigLoad` carrying the config path. -/
def MutableAppState.loadConfig (disk : Disk) (config_path : FsPath) :
    Except StateError ConfigFile :=
  match ConfigFile.from_path disk config_path with
  | Except.ok config => Except.ok config
  | Except.error (SerError.FileOpen path notFound) =>
      if notFound then Except.ok ConfigFile.default
      else Except.error (StateError.ConfigLoad config_path (SerError.FileOpen path notFound))
  | Except.error err => Except.error (StateError.ConfigLoad config_path err)

/-- `MutableAppState::new`: load the config from
`config_dir/server_events.toml`, then resolve `NextBoot` to `Unmuted`. -/
def MutableAppState.new (disk : Disk) (config_dir : FsPath) :
    Except StateError MutableAppState :=
  match MutableAppState.loadConfig disk (config_dir.join "server_events.toml") with
  | Except.ok config =>
      Except.ok { muted := if config.muted = MuteState.NextBoot then MuteState.Unmuted else config.muted }
  | Except.error e => Except.error e

/-- `AppState` from `src/state.rs`.  The `Arc<RwLock<..>>` around the mutable
part becomes explicit state passing in the accessors below. -/
structure AppState where
  config_dir : FsPath
  cache_dir : FsPath
  mut_state : MutableAppState
deriving DecidableEq, Repr

/-- `AppState::new`: derive `cache_dir = config_dir/cache`, build the mutable
state.  The function performs no filesystem modification, so the disk is
returned unchanged. -/
def AppState.new (disk : Disk) (config_dir : FsPath) :
    Except StateError (AppState × Disk) :=
  match MutableAppState.new disk config_dir with
  | Except.ok ms =>
      Except.ok ({ config_dir := config_dir, cache_dir := config_dir.join "cache", mut_state := ms }, disk)
  | Except.error e => Except.error e

/-- `AppState::access`: run a closure on the (read-locked) state. -/
def AppState.access {R : Type} (app : AppState) (access_fn : MutableAppState → R) : R :=
  access_fn app.mut_state

/-- `AppState::access_mut`: run the closure on the (write-locked) state; a
closure error is propagated verbatim (the `?`) before any synchronization;
otherwise the new state is synced to `config_dir/server_events.toml` and a
sync failure is reported as `Ok(Err(..))`, with the closure's success value
dropped.  The closure is modelled as returning the mutated state next to its
`Result`, matching `&mut` access. -/
def AppState.access_mut {R E : Type} (app : AppState) (disk : Disk)
    (access_fn : MutableAppState → MutableAppState × Except E R) :
    AppState × Disk × Except E (Except StateError R) :=
  match access_fn app.mut_state with
  | (s', Except.error e) => ({ app with mut_state := s' }, disk, Except.error e)
  | (s', Except.ok r) =>
      match MutableAppState.sync s' disk (app.config_dir.join "server_events.toml") with
      | (disk', Except.error err) =>
          ({ app with mut_state := s' }, disk', Except.ok (Except.error err))
      | (disk', Except.ok _) =>
          ({ app with mut_state := s' }, disk', Except.ok (Except.ok r))

/-- `tray_icon::menu::MenuEvent`: carries an opaque identifier. -/
structure MenuEvent where
  id : MenuId
deriving DecidableEq, Repr

/-- `winit::event_loop::EventLoopWindowTarget`, reduced to the one effect the
handler can have on it: `eloop.exit()`. -/
structure EventLoopWindowTarget where
  exitRequested : Bool
deriving DecidableEq, Repr

/-- `TrayIconMenuItem` from `src/gui/tray_icon.rs` (two items). -/
inductive TrayIconMenuItem where
  | Open
  | Exit
deriving DecidableEq, Repr

/-- `tray_icon::Error` from `src/gui/tray_icon.rs` (payloads reduced to the
paths the claims inspect; the foreign-library payloads are dropped). -/
inductive TrayError where
  | CacheDirCreate (path : FsPath)
  | ImageConvert
  | IconCreate
  | MenuAppendItem (item : TrayIconMenuItem)
  | TrayIconCreate
  | TrayIconVisible
deriving DecidableEq, Repr

/-- `TrayIcon` from `src/gui/tray_icon.rs`: the wrapped backend icon is a
foreign handle; what remains observable is the `ids: [MenuId; 2]` array,
modelled as a pair. -/
structure TrayIcon where
  ids : MenuId × MenuId
deriving DecidableEq, Repr

/-- The deterministic portion of `TrayIcon::new`: ensure the cache directory
exists (failing with `CacheDirCreate`), then build the menu by appending the
`&Open` and `&Exit` items and record their platform-assigned identifiers
(`openId`, `exitId`, inputs because the platform assigns them).  Icon
decoding and backend construction are foreign effects assumed to succeed;
the list returned is the sequence of menu items appended, with their ids. -/
def TrayIcon.new (state : AppState) (disk : Disk) (openId exitId : MenuId) :
    Except TrayError (TrayIcon × List (TrayIconMenuItem × MenuId) × Disk) :=
  if state.cache_dir ∈ disk.dirs then
    Except.ok ({ ids := (openId, exitId) },
      [(TrayIconMenuItem.Open, openId), (TrayIconMenuItem.Exit, exitId)], disk)
  else if disk.createDirFails then
    Except.error (TrayError.CacheDirCreate state.cache_dir)
  else
    Except.ok ({ ids := (openId, exitId) },
      [(TrayIconMenuItem.Open, openId), (TrayIconMenuItem.Exit, exitId)],
      disk.createDirAll state.cache_dir)

/-- `TrayIconHandle` (non-Linux direct mode) wraps the `TrayIcon`. -/
structure TrayIconHandle where
  icon : TrayIcon
deriving DecidableEq, Repr

/-- `TrayIconHandle::get_id_of_item`: `Open -> ids[0]`, `Exit -> ids[1]`. -/
def TrayIconHandle.get_id_of_item (h : TrayIconHandle) (item : TrayIconMenuItem) : MenuId :=
  match item with
  | TrayIconMenuItem.Open => h.icon.ids.1
  | TrayIconMenuItem.Exit => h.icon.ids.2

/-- `App` from `src/gui/app.rs`.  The window is a foreign resource; only its
presence matters to the dispatcher, so it is `Option Unit`.  The event loop
itself is the driver and is not stored. -/
structure App where
  state : AppState
  tray_icon : Option TrayIcon
  window : Option Unit
deriving DecidableEq, Repr

/-- `App::handle_tray_event` from `src/gui/app.rs`: dispatch on the literal
identifier string of the menu event.  `"3"` (Open) and `"6"` (Mute for) only
log; `"4"` toggles the mute state and `"5"` sets `NextBoot`, both through
`access_mut` with the persistence result merely logged; `"7"` requests loop
exit; anything else is logged and ignored. -/
def App.handle_tray_event (state : AppState) (disk : Disk)
    (eloop : EventLoopWindowTarget) (event : MenuEvent) :
    AppState × Disk × EventLoopWindowTarget :=
  if event.id = "3" then (state, disk, eloop)
  else if event.id = "4" then
    let out := state.access_mut disk (fun s =>
      (if s.muted.is_unmuted then { muted := MuteState.Manual } else { muted := MuteState.Unmuted },
       (Except.ok () : Except Empty Unit)))
    (out.1, out.2.1, eloop)
  else if event.id = "5" then
    let out := state.access_mut disk (fun _ =>
      ({ muted := MuteState.NextBoot }, (Except.ok () : Except Empty Unit)))
    (out.1, out.2.1, eloop)
  else if event.id = "6" then (state, disk, eloop)
  else if event.id = "7" then (state, disk, { eloop with exitRequested := true })
  else (state, disk, eloop)

/-- The `Event::UserEvent` branch of `App::run`: forward the menu event to
`handle_tray_event`; the owned window and tray-icon slot are not touched. -/
def App.dispatch_user_event (app : App) (disk : Disk)
    (eloop : EventLoopWindowTarget) (event : MenuEvent) :
    App × Disk × EventLoopWindowTarget :=
  let out := App.handle_tray_event app.state disk eloop event
  ({ app with state := out.1 }, out.2.1, out.2.2)

/-- A sequence of mutations of the `muted` value, each applied through
`AppState::access_mut` (closure error type `Infallible`); returns the final
store, the final disk and the list of persistence results, in order. -/
def applyWrites : AppState → Disk → List (MuteState → MuteState) →
    AppState × Disk × List (Except StateError Unit)
  | app, disk, [] => (app, disk, [])
  | app, disk, f :: fs =>
      let out := app.access_mut disk (fun s =>
        ({ muted := f s.muted }, (Except.ok () : Except Empty Unit)))
      let pres : Except StateError Unit :=
        match out.2.2 with
        | Except.ok p => p
        | Except.error e => e.elim
      let rest := applyWrites out.1 out.2.1 fs
      (rest.1, rest.2.1, pres :: rest.2.2)

/-- Concrete sample config directory used by witnesses. -/
def sampleDir : FsPath := ["cfg"]

/-- The config-file path under `sampleDir`. -/
def sampleConfigPath : FsPath := sampleDir.join "server_events.toml"

/-- A completely fresh disk: no directories, no files, no injected errors. -/
def freshDisk : Disk := { dirs := [], files := [], createDirFails := false, writeFails := false }

/-- The store handle for `sampleDir` with an unmuted state. -/
def sampleApp : AppState :=
  { config_dir := sampleDir, cache_dir := sampleDir.join "cache",
    mut_state := { muted := MuteState.Unmuted } }

/-- An event-loop target with no exit requested. -/
def sampleTarget : EventLoopWindowTarget := { exitRequested := false }

/-- A disk whose config directory exists but where file writes fail. -/
def writeFailDisk : Disk :=
  { dirs := [sampleDir], files := [], createDirFails := false, writeFails := true }

/-- A disk persisting `muted = "next_boot"`. -/
def nextBootDisk : Disk :=
  { dirs := [sampleDir],
    files := [(sampleConfigPath, FileData.valid { muted := MuteState.NextBoot })],
    createDirFails := false, writeFails := false }

/-- `nextBootDisk` after re-syncing an unmuted state. -/
def syncedDisk : Disk :=
  { dirs := [sampleDir],
    files := [(sampleConfigPath, FileData.valid { muted := MuteState.Unmuted })],
    createDirFails := false, writeFails := false }

/-- A disk whose config file cannot be opened (error kind not `NotFound`). -/
def unreadableDisk : Disk :=
  { dirs := [sampleDir], files := [(sampleConfigPath, FileData.unreadable)],
    createDirFails := false, writeFails := false }

/-- A disk whose config file does not parse. -/
def corruptDisk : Disk :=
  { dirs := [sampleDir], files := [(sampleConfigPath, FileData.corrupt)],
    createDirFails := false, writeFails := false }

/-- A disk where the cache directory already exists. -/
def cacheDisk : Disk :=
  { dirs := [sampleDir, sampleDir.join "cache"], files := [],
    createDirFails := false, writeFails := false }

/-- A closure mutating to `Manual` and succeeding with value `42`. -/
def fn42 : MutableAppState → MutableAppState × Except Unit Nat :=
  fun _ => ({ muted := MuteState.Manual }, Except.ok 42)

/-- Same mutation as `fn42`, but succeeding with value `7`. -/
def fn7 : MutableAppState → MutableAppState × Except Unit Nat :=
  fun _ => ({ muted := MuteState.Manual }, Except.ok 7)

/-- A closure mutating to `Manual` and failing with caller error `9`. -/
def fnErr : MutableAppState → MutableAppState × Except Nat Unit :=
  fun _ => ({ muted := MuteState.Manual }, Except.error 9)

/-- A disk where directory creation fails with an I/O error. -/
def dirFailDisk : Disk :=
  { dirs := [], files := [], createDirFails := true, writeFails := false }

/-! ## Helper lemmas -/

theorem FsPath.parent_join (p : FsPath) (s : String) : (p.join s).parent = some p := by
  unfold FsPath.parent FsPath.join
  rw [if_neg (by simp), List.dropLast_concat]

theorem lookupFile_setFile (fs : List (FsPath × FileData)) (p : FsPath) (fd : FileData) :
    lookupFile (setFile fs p fd) p = some fd := by
  induction fs with
  | nil => simp [setFile, lookupFile]
  | cons e rest ih =>
      by_cases h : e.1 = p
      · simp [setFile, lookupFile, h]
      · simp [setFile, lookupFile, h, ih]

theorem writeConfig_ok_lookup (disk : Disk) (p : FsPath) (c : ConfigFile) (disk' : Disk)
    (h : disk.writeConfig p c = (disk', Except.ok ())) :
    lookupFile disk'.files p = some (FileData.valid c) := by
  unfold Disk.writeConfig at h
  by_cases hw : disk.writeFails
  · simp [hw] at h
  · simp [hw] at h
    rw [← h]
    exact lookupFile_setFile disk.files p (FileData.valid c)

theorem sync_ok_lookup (s : MutableAppState) (disk : Disk) (p : FsPath) (disk' : Disk)
    (h : s.sync disk p = (disk', Except.ok ())) :
    lookupFile disk'.files p = some (FileData.valid { muted := s.muted }) := by
  unfold MutableAppState.sync at h
  rcases hp : p.parent with _ | parent
  · rw [hp] at h
    exact writeConfig_ok_lookup disk p _ disk' h
  · rw [hp] at h
    replace h :
        (if parent ∈ disk.dirs then disk.writeConfig p { muted := s.muted }
         else if disk.createDirFails = true then
           (disk, Except.error (StateError.ConfigDirCreate parent))
         else (disk.createDirAll parent).writeConfig p { muted := s.muted }) =
          (disk', Except.ok ()) := h
    by_cases hmem : parent ∈ disk.dirs
    · rw [if_pos hmem] at h
      exact writeConfig_ok_lookup disk p _ disk' h
    · rw [if_neg hmem] at h
      by_cases hcd : disk.createDirFails
      · simp [hcd] at h
      · simp only [hcd, if_false, Bool.false_eq_true] at h
        exact writeConfig_ok_lookup (disk.createDirAll parent) p _ disk' h

theorem new_of_lookup_valid (disk : Disk) (config_dir : FsPath) (c : ConfigFile)
    (h : lookupFile disk.files (config_dir.join "server_events.toml") = some (FileData.valid c)) :
    MutableAppState.new disk config_dir =
      Except.ok { muted := MuteState.normalizeNextBoot c.muted } := by
  simp [MutableAppState.new, MutableAppState.loadConfig, ConfigFile.from_path, h,
    MuteState.normalizeNextBoot]

theorem new_not_nextBoot (disk : Disk) (config_dir : FsPath) (s : MutableAppState)
    (h : MutableAppState.new disk config_dir = Except.ok s) :
    s.muted ≠ MuteState.NextBoot := by
  unfold MutableAppState.new at h
  rcases hl : MutableAppState.loadConfig disk (config_dir.join "server_events.toml") with e | c
  · rw [hl] at h; cases h
  · rw [hl] at h
    simp only [Except.ok.injEq] at h
    rw [← h]
    by_cases hc : c.muted = MuteState.NextBoot
    · simp [hc]
    · simp [hc]

theorem mem_createDirAll (disk : Disk) (p : FsPath) (hp : p ≠ []) :
    p ∈ (disk.createDirAll p).dirs := by
  have hlen : 0 < p.length := List.length_pos.mpr hp
  unfold Disk.createDirAll
  apply List.mem_append.mpr
  left
  apply List.mem_map.mpr
  refine ⟨p.length - 1, List.mem_range.mpr (by omega), ?_⟩
  have hsucc : p.length - 1 + 1 = p.length := by omega
  rw [hsucc, List.take_length]

theorem sync_writeFails (s : MutableAppState) (disk : Disk) (cd : FsPath) (s0 : String)
    (hcd : disk.createDirFails = false) (hw : disk.writeFails = true) :
    (s.sync disk (cd.join s0)).2 = Except.error (StateError.ConfigWrite (cd.join s0)) := by
  unfold MutableAppState.sync
  rw [FsPath.parent_join]
  by_cases hmem : cd ∈ disk.dirs
  · simp [hmem, Disk.writeConfig, hw]
  · simp [hmem, hcd, Disk.writeConfig, Disk.createDirAll, hw]

theorem applyWrites_cons (app : AppState) (disk : Disk) (f : MuteState → MuteState)
    (fs : List (MuteState → MuteState)) :
    applyWrites app disk (f :: fs) =
      ((applyWrites { app with mut_state := { muted := f app.mut_state.muted } }
          (MutableAppState.sync { muted := f app.mut_state.muted } disk
            (app.config_dir.join "server_events.toml")).1 fs).1,
        (applyWrites { app with mut_state := { muted := f app.mut_state.muted } }
          (MutableAppState.sync { muted := f app.mut_state.muted } disk
            (app.config_dir.join "server_events.toml")).1 fs).2.1,
        (MutableAppState.sync { muted := f app.mut_state.muted } disk
          (app.config_dir.join "server_events.toml")).2 ::
          (applyWrites { app with mut_state := { muted := f app.mut_state.muted } }
            (MutableAppState.sync { muted := f app.mut_state.muted } disk
              (app.config_dir.join "server_events.toml")).1 fs).2.2) := by
  rcases hs : MutableAppState.sync { muted := f app.mut_state.muted } disk
      (app.config_dir.join "server_events.toml") with ⟨d', r⟩
  cases r with
  | error e => simp [applyWrites, AppState.access_mut, hs]
  | ok u => simp [applyWrites, AppState.access_mut, hs]

theorem applyWrites_config_dir (fns : List (MuteState → MuteState)) :
    ∀ (app : AppState) (disk : Disk), (applyWrites app disk fns).1.config_dir = app.config_dir := by
  induction fns with
  | nil => intro app disk; rfl
  | cons f fs ih =>
      intro app disk
      rw [applyWrites_cons]
      simpa using ih _ _

theorem applyWrites_roundtrip (fns : List (MuteState → MuteState)) :
    ∀ (app : AppState) (disk : Disk),
      MutableAppState.new disk app.config_dir =
        Except.ok { muted := MuteState.normalizeNextBoot app.mut_state.muted } →
      (∀ r ∈ (applyWrites app disk fns).2.2, r = Except.ok ()) →
      MutableAppState.new (applyWrites app disk fns).2.1 (applyWrites app disk fns).1.config_dir =
        Except.ok { muted := MuteState.normalizeNextBoot (applyWrites app disk fns).1.mut_state.muted } := by
  induction fns with
  | nil =>
      intro app disk hinv hok
      simpa [applyWrites] using hinv
  | cons f fs ih =>
      intro app disk hinv hok
      rw [applyWrites_cons] at hok ⊢
      have hhead : (MutableAppState.sync { muted := f app.mut_state.muted } disk
          (app.config_dir.join "server_events.toml")).2 = Except.ok () := by
        apply hok
        simp
      have hsync : MutableAppState.sync { muted := f app.mut_state.muted } disk
          (app.config_dir.join "server_events.toml") =
          ((MutableAppState.sync { muted := f app.mut_state.muted } disk
            (app.config_dir.join "server_events.toml")).1, Except.ok ()) := by
        rw [← hhead]
      have hlook := sync_ok_lookup { muted := f app.mut_state.muted } disk
        (app.config_dir.join "server_events.toml") _ hsync
      apply ih
      · exact new_of_lookup_valid _ _ _ hlook
      · intro r hr
        apply hok
        simp [hr]

/-! ## Claim theorems -/

/-- Claim C1, counterexample: the claim says no menu-action handler ever
reintroduces `NextBoot` into live memory, but processing the
`"5"` (Mute-until-exit) menu event from an unmuted state leaves the
in-memory `muted` field holding `NextBoot`. -/
theorem c1_counterexample :
    (App.handle_tray_event sampleApp freshDisk sampleTarget { id := "5" }).1.mut_state.muted =
      MuteState.NextBoot := by decide

/-- Claim C1 (amended): `NextBoot` is normalized to `Unmuted` at load time —
`MutableAppState::new` never returns a state whose `muted` is `NextBoot` —
but the Mute-until-exit menu handler (identifier `"5"`) does set
`muted = NextBoot` in live memory afterwards. -/
theorem c1_theorem :
    (∀ (disk : Disk) (config_dir : FsPath) (s : MutableAppState),
        MutableAppState.new disk config_dir = Except.ok s → s.muted ≠ MuteState.NextBoot) ∧
    (∀ (app : AppState) (disk : Disk) (el : EventLoopWindowTarget),
        (App.handle_tray_event app disk el { id := "5" }).1.mut_state.muted = MuteState.NextBoot) := by
  constructor
  · exact new_not_nextBoot
  · intro app disk el
    rcases hsy : MutableAppState.sync { muted := MuteState.NextBoot } disk
        (app.config_dir.join "server_events.toml") with ⟨d', r⟩
    cases r <;> simp [App.handle_tray_event, AppState.access_mut, hsy]

/-- Claim C1, witness: the amended theorem applied to the concrete disk that
persists `next_boot` (constructor part) and to a concrete Mute-until-exit
event (handler part). -/
theorem c1_witness :
    ({ muted := MuteState.Unmuted } : MutableAppState).muted ≠ MuteState.NextBoot ∧
    (App.handle_tray_event sampleApp nextBootDisk sampleTarget { id := "5" }).1.mut_state.muted =
      MuteState.NextBoot :=
  ⟨c1_theorem.1 nextBootDisk sampleDir { muted := MuteState.Unmuted } (by decide),
   c1_theorem.2 sampleApp nextBootDisk sampleTarget⟩

/-- Claim C2, counterexample: the claim says a failed persistence returns
the `ConfigWrite` error alongside the closure's success value; in the code
the success value is discarded — two closures with the same mutation but
different success values (`42` and `7`) produce identical outputs under a
failing write, and that output carries only `Ok(Err(ConfigWrite ..))`. -/
theorem c2_counterexample :
    sampleApp.access_mut writeFailDisk fn42 = sampleApp.access_mut writeFailDisk fn7 ∧
    sampleApp.access_mut writeFailDisk fn42 =
      ({ config_dir := sampleDir, cache_dir := sampleDir.join "cache",
         mut_state := { muted := MuteState.Manual } },
       writeFailDisk, Except.ok (Except.error (StateError.ConfigWrite sampleConfigPath))) :=
  ⟨rfl, rfl⟩

/-- Claim C2 (amended): for every closure passed to `AppState::access_mut`,
a closure error is propagated verbatim with no disk synchronization
attempted; if the closure succeeds but the serialized write fails, the call
returns the `ConfigWrite` error in place of the closure's success value
while the in-memory mutation remains applied (no rollback). -/
theorem c2_theorem {R E : Type} (app : AppState) (disk : Disk)
    (fn : MutableAppState → MutableAppState × Except E R) :
    (∀ e : E, (fn app.mut_state).2 = Except.error e →
        app.access_mut disk fn =
          ({ app with mut_state := (fn app.mut_state).1 }, disk, Except.error e)) ∧
    (∀ r : R, (fn app.mut_state).2 = Except.ok r →
        disk.createDirFails = false → disk.writeFails = true →
        (app.access_mut disk fn).1.mut_state = (fn app.mut_state).1 ∧
        (app.access_mut disk fn).2.2 =
          Except.ok (Except.error
            (StateError.ConfigWrite (app.config_dir.join "server_events.toml")))) := by
  constructor
  · intro e he
    rcases hfn : fn app.mut_state with ⟨s', res⟩
    rw [hfn] at he
    simp at he
    subst he
    simp [AppState.access_mut, hfn]
  · intro r hr hcd hw
    rcases hfn : fn app.mut_state with ⟨s', res⟩
    rw [hfn] at hr
    simp at hr
    subst hr
    have hs2 := sync_writeFails s' disk app.config_dir "server_events.toml" hcd hw
    rcases hsy : MutableAppState.sync s' disk (app.config_dir.join "server_events.toml") with ⟨d2, r2⟩
    rw [hsy] at hs2
    simp at hs2
    subst hs2
    simp [AppState.access_mut, hfn, hsy]

/-- Claim C2, witness: the amended theorem applied to a concrete failing
closure (error `9`, no sync) and to a concrete succeeding closure under a
failing write (`ConfigWrite` reported, mutation kept). -/
theorem c2_witness :
    (sampleApp.access_mut freshDisk fnErr =
      ({ config_dir := sampleDir, cache_dir := sampleDir.join "cache",
         mut_state := { muted := MuteState.Manual } }, freshDisk, Except.error 9)) ∧
    ((sampleApp.access_mut writeFailDisk fn42).1.mut_state = { muted := MuteState.Manual } ∧
     (sampleApp.access_mut writeFailDisk fn42).2.2 =
       Except.ok (Except.error (StateError.ConfigWrite (sampleDir.join "server_events.toml")))) :=
  ⟨(c2_theorem sampleApp freshDisk fnErr).1 9 rfl,
   (c2_theorem sampleApp writeFailDisk fn42).2 42 rfl rfl rfl⟩

/-- Claim C3, counterexample: a single successfully-persisted write setting
`muted = NextBoot` yields final in-memory value `NextBoot`, yet a fresh
store constructed from the same directory loads `Unmuted`, so reloading
does not reproduce the final muted value as claimed. -/
theorem c3_counterexample :
    (applyWrites sampleApp freshDisk [fun _ => MuteState.NextBoot]).2.2 = [Except.ok ()] ∧
    (applyWrites sampleApp freshDisk [fun _ => MuteState.NextBoot]).1.mut_state.muted =
      MuteState.NextBoot ∧
    MutableAppState.new (applyWrites sampleApp freshDisk [fun _ => MuteState.NextBoot]).2.1
      sampleDir = Except.ok { muted := MuteState.Unmuted } :=
  ⟨rfl, rfl, rfl⟩

/-- Claim C3 (amended): for a store obtained from `AppState::new` and any
finite sequence of `muted` mutations applied through `access_mut` whose
persistence results all succeeded, a fresh `MutableAppState::new` against
the same config directory yields the final in-memory muted value with the
load-time normalization applied (`NextBoot` loads back as `Unmuted`). -/
theorem c3_theorem (disk0 : Disk) (config_dir : FsPath) (app0 : AppState) (disk1 : Disk)
    (fns : List (MuteState → MuteState))
    (h0 : AppState.new disk0 config_dir = Except.ok (app0, disk1))
    (hok : ∀ r ∈ (applyWrites app0 disk1 fns).2.2, r = Except.ok ()) :
    MutableAppState.new (applyWrites app0 disk1 fns).2.1 config_dir =
      Except.ok { muted := (MuteState.normalizeNextBoot
        ((applyWrites app0 disk1 fns).1.mut_state.muted)) } := by
  unfold AppState.new at h0
  rcases hnew : MutableAppState.new disk0 config_dir with e | ms
  · rw [hnew] at h0; cases h0
  · rw [hnew] at h0
    simp only [Except.ok.injEq, Prod.mk.injEq] at h0
    obtain ⟨hA, hD⟩ := h0
    subst hD
    have hcd : app0.config_dir = config_dir := by rw [← hA]
    have hms : app0.mut_state = ms := by rw [← hA]
    have hnb : ms.muted ≠ MuteState.NextBoot := new_not_nextBoot disk0 config_dir ms hnew
    have hinv : MutableAppState.new disk0 app0.config_dir =
        Except.ok { muted := MuteState.normalizeNextBoot app0.mut_state.muted } := by
      rw [hcd, hms]
      rw [show MuteState.normalizeNextBoot ms.muted = ms.muted from by
        simp [MuteState.normalizeNextBoot, hnb]]
      exact hnew
    have hmain := applyWrites_roundtrip fns app0 disk0 hinv hok
    rwa [applyWrites_config_dir, hcd] at hmain

/-- Claim C3, witness: the amended theorem run on a fresh directory with one
successfully-persisted write setting `Manual`. -/
theorem c3_witness :
    MutableAppState.new (applyWrites sampleApp freshDisk [fun _ => MuteState.Manual]).2.1
        sampleDir =
      Except.ok { muted := (MuteState.normalizeNextBoot
        ((applyWrites sampleApp freshDisk [fun _ => MuteState.Manual]).1.mut_state.muted)) } :=
  c3_theorem freshDisk sampleDir sampleApp freshDisk [fun _ => MuteState.Manual] rfl (by decide)

/-- Claim C4, counterexample: the claim says the tray menu has exactly five
semantic items routed through a bidirectional table; `TrayIcon::new`
appends exactly two items (`Open` and `Exit`), so the menu length is `2`,
not `5`. -/
theorem c4_counterexample :
    TrayIcon.new sampleApp cacheDisk "1" "2" =
      Except.ok ({ ids := ("1", "2") },
        [(TrayIconMenuItem.Open, "1"), (TrayIconMenuItem.Exit, "2")], cacheDisk) ∧
    [(TrayIconMenuItem.Open, ("1" : MenuId)), (TrayIconMenuItem.Exit, "2")].length = 2 ∧
    [(TrayIconMenuItem.Open, ("1" : MenuId)), (TrayIconMenuItem.Exit, "2")].length ≠ 5 :=
  ⟨rfl, rfl, by decide⟩

/-- Claim C4 (amended): the tray controller builds a menu with exactly two
fixed semantic items (`Open`, `Exit`), records the platform identifier of
each in an array fixed at construction whose action-to-identifier lookup
(`get_id_of_item`) is total on the two valid actions, and the dispatcher's
menu-event routing compares literal identifier strings (e.g. `"7"` always
requests exit) rather than consulting that table. -/
theorem c4_theorem (state : AppState) (disk : Disk) (openId exitId : MenuId)
    (h : state.cache_dir ∈ disk.dirs) :
    TrayIcon.new state disk openId exitId =
      Except.ok ({ ids := (openId, exitId) },
        [(TrayIconMenuItem.Open, openId), (TrayIconMenuItem.Exit, exitId)], disk) ∧
    [(TrayIconMenuItem.Open, openId), (TrayIconMenuItem.Exit, exitId)].length = 2 ∧
    TrayIconHandle.get_id_of_item { icon := { ids := (openId, exitId) } }
      TrayIconMenuItem.Open = openId ∧
    TrayIconHandle.get_id_of_item { icon := { ids := (openId, exitId) } }
      TrayIconMenuItem.Exit = exitId ∧
    (∀ (app : AppState) (d : Disk) (el : EventLoopWindowTarget),
        (App.handle_tray_event app d el { id := "7" }).2.2.exitRequested = true) := by
  refine ⟨by simp [TrayIcon.new, h], rfl, rfl, rfl, ?_⟩
  intro app d el
  simp [App.handle_tray_event]

/-- Claim C4, witness: the amended theorem applied with concrete platform
identifiers on a disk whose cache directory exists. -/
theorem c4_witness :
    TrayIcon.new sampleApp cacheDisk "1" "2" =
      Except.ok ({ ids := ("1", "2") },
        [(TrayIconMenuItem.Open, "1"), (TrayIconMenuItem.Exit, "2")], cacheDisk) ∧
    (App.handle_tray_event sampleApp cacheDisk sampleTarget { id := "7" }).2.2.exitRequested =
      true :=
  ⟨(c4_theorem sampleApp cacheDisk "1" "2" (by decide)).1,
   (c4_theorem sampleApp cacheDisk "1" "2" (by decide)).2.2.2.2 sampleApp cacheDisk sampleTarget⟩

/-- Claim C5: dispatching an `Open` menu event (identifier `"3"`) while no
window is owned leaves the dispatcher state, the disk and the event-loop
target completely unchanged — the handler only logs the click, so no window
is ever constructed and no focus request is issued, contradicting the
claimed construct-or-focus behavior. -/
theorem c5_theorem :
    App.dispatch_user_event { state := sampleApp, tray_icon := none, window := none }
        freshDisk sampleTarget { id := "3" } =
      ({ state := sampleApp, tray_icon := none, window := none }, freshDisk, sampleTarget) := rfl

/-- Claim C6, counterexample: on a completely fresh disk, `AppState::new`
completes successfully with the disk unchanged — neither `config_dir` nor
`config_dir/cache` exists afterwards, contradicting the claim that the
constructor creates both. -/
theorem c6_counterexample :
    AppState.new freshDisk sampleDir = Except.ok (sampleApp, freshDisk) ∧
    (sampleDir : FsPath) ∉ freshDisk.dirs ∧
    (sampleDir.join "cache" : FsPath) ∉ freshDisk.dirs :=
  ⟨rfl, by decide, by decide⟩

/-- Claim C6 (amended): for a `config_dir` whose config file does not exist,
`AppState::new` succeeds without touching the disk and returns a store with
`muted = Unmuted`; the config directory is instead created on demand by the
first `sync` (which fails with `ConfigDirCreate` on an I/O error) and the
cache directory by `TrayIcon::new` (which fails with `CacheDirCreate`). -/
theorem c6_theorem (disk : Disk) (config_dir : FsPath)
    (hfile : lookupFile disk.files (config_dir.join "server_events.toml") = none) :
    (AppState.new disk config_dir =
        Except.ok ({ config_dir := config_dir, cache_dir := config_dir.join "cache",
                     mut_state := { muted := MuteState.Unmuted } }, disk)) ∧
    (∀ s : MutableAppState, config_dir ∉ disk.dirs → disk.createDirFails = false →
        config_dir ≠ [] →
        config_dir ∈ ((s.sync disk (config_dir.join "server_events.toml")).1).dirs) ∧
    (∀ s : MutableAppState, config_dir ∉ disk.dirs → disk.createDirFails = true →
        (s.sync disk (config_dir.join "server_events.toml")).2 =
          Except.error (StateError.ConfigDirCreate config_dir)) ∧
    (∀ (state : AppState) (openId exitId : MenuId), state.cache_dir ∉ disk.dirs →
        disk.createDirFails = false →
        state.cache_dir ≠ [] →
        TrayIcon.new state disk openId exitId =
          Except.ok ({ ids := (openId, exitId) },
            [(TrayIconMenuItem.Open, openId), (TrayIconMenuItem.Exit, exitId)],
            disk.createDirAll state.cache_dir) ∧
        state.cache_dir ∈ (disk.createDirAll state.cache_dir).dirs) ∧
    (∀ (state : AppState) (openId exitId : MenuId), state.cache_dir ∉ disk.dirs →
        disk.createDirFails = true →
        TrayIcon.new state disk openId exitId =
          Except.error (TrayError.CacheDirCreate state.cache_dir)) := by
  refine ⟨?_, ?_, ?_, ?_, ?_⟩
  · simp [AppState.new, MutableAppState.new, MutableAppState.loadConfig, ConfigFile.from_path,
      hfile, ConfigFile.default]
  · intro s hmem hcd hne
    unfold MutableAppState.sync
    rw [FsPath.parent_join]
    simp only [hmem, if_false, hcd, Bool.false_eq_true, Disk.writeConfig]
    have hlen : 0 < config_dir.length := List.length_pos.mpr hne
    by_cases hw : disk.writeFails <;>
      simp [Disk.createDirAll, hw] <;>
      exact Or.inl ⟨config_dir.length - 1, by omega, by omega⟩
  · intro s hmem hcd
    unfold MutableAppState.sync
    rw [FsPath.parent_join]
    simp [hmem, hcd]
  · intro state openId exitId hmem hcd hne
    constructor
    · simp [TrayIcon.new, hmem, hcd]
    · exact mem_createDirAll disk state.cache_dir hne
  · intro state openId exitId hmem hcd
    simp [TrayIcon.new, hmem, hcd]

/-- Claim C6, witness: the amended theorem instantiated on a fresh disk (for
the constructor and creation-success conjuncts) and on a disk whose
directory creation fails (for the two error conjuncts). -/
theorem c6_witness :
    (AppState.new freshDisk sampleDir =
      Except.ok ({ config_dir := sampleDir, cache_dir := sampleDir.join "cache",
                   mut_state := { muted := MuteState.Unmuted } }, freshDisk)) ∧
    sampleDir ∈ ((MutableAppState.sync { muted := MuteState.Manual } freshDisk
      (sampleDir.join "server_events.toml")).1).dirs ∧
    (MutableAppState.sync { muted := MuteState.Manual } dirFailDisk
      (sampleDir.join "server_events.toml")).2 =
      Except.error (StateError.ConfigDirCreate sampleDir) ∧
    (TrayIcon.new sampleApp freshDisk "1" "2" =
      Except.ok ({ ids := ("1", "2") },
        [(TrayIconMenuItem.Open, "1"), (TrayIconMenuItem.Exit, "2")],
        freshDisk.createDirAll sampleApp.cache_dir) ∧
     sampleApp.cache_dir ∈ (freshDisk.createDirAll sampleApp.cache_dir).dirs) ∧
    TrayIcon.new sampleApp dirFailDisk "1" "2" =
      Except.error (TrayError.CacheDirCreate sampleApp.cache_dir) :=
  ⟨(c6_theorem freshDisk sampleDir rfl).1,
   (c6_theorem freshDisk sampleDir rfl).2.1 { muted := MuteState.Manual } (by decide) rfl
     (by decide),
   (c6_theorem dirFailDisk sampleDir rfl).2.2.1 { muted := MuteState.Manual } (by decide) rfl,
   (c6_theorem freshDisk sampleDir rfl).2.2.2.1 sampleApp "1" "2" (by decide) rfl (by decide),
   (c6_theorem dirFailDisk sampleDir rfl).2.2.2.2 sampleApp "1" "2" (by decide) rfl⟩

/-- Claim C7: processing the Mute menu event (identifier `"4"`) toggles the
in-memory muted value — `Unmuted` becomes `Manual` and every muted variant
becomes `Unmuted` — the mutation goes through `access_mut` (the resulting
disk is the synchronization of the toggled state) and the event-loop target
is untouched. -/
theorem c7_theorem (app : AppState) (disk : Disk) (el : EventLoopWindowTarget) :
    (App.handle_tray_event app disk el { id := "4" }).1.mut_state =
      (if (app.mut_state.muted).is_unmuted then { muted := MuteState.Manual }
       else { muted := MuteState.Unmuted }) ∧
    (App.handle_tray_event app disk el { id := "4" }).2.1 =
      (MutableAppState.sync
        (if (app.mut_state.muted).is_unmuted then { muted := MuteState.Manual }
         else { muted := MuteState.Unmuted }) disk (app.config_dir.join "server_events.toml")).1 ∧
    (App.handle_tray_event app disk el { id := "4" }).2.2 = el := by
  by_cases hm : (app.mut_state.muted).is_unmuted = true
  · rcases hsy : MutableAppState.sync { muted := MuteState.Manual } disk
        (app.config_dir.join "server_events.toml") with ⟨d', r⟩
    cases r <;> simp [App.handle_tray_event, AppState.access_mut, hm, hsy]
  · rcases hsy : MutableAppState.sync { muted := MuteState.Unmuted } disk
        (app.config_dir.join "server_events.toml") with ⟨d', r⟩
    cases r <;> simp [App.handle_tray_event, AppState.access_mut, hm, hsy]

/-- Claim C8: `MutableAppState::new` returns the default state
(`muted = Unmuted`) when the config file is absent, and fails with
`ConfigLoad` carrying the config path for an open error of a kind other
than `NotFound` and for a parse failure. -/
theorem c8_theorem (disk : Disk) (config_dir : FsPath) :
    (lookupFile disk.files (config_dir.join "server_events.toml") = none →
      MutableAppState.new disk config_dir = Except.ok { muted := MuteState.Unmuted }) ∧
    (lookupFile disk.files (config_dir.join "server_events.toml") = some FileData.unreadable →
      MutableAppState.new disk config_dir =
        Except.error (StateError.ConfigLoad (config_dir.join "server_events.toml")
          (SerError.FileOpen (config_dir.join "server_events.toml") false))) ∧
    (lookupFile disk.files (config_dir.join "server_events.toml") = some FileData.corrupt →
      MutableAppState.new disk config_dir =
        Except.error (StateError.ConfigLoad (config_dir.join "server_events.toml")
          (SerError.Deserialize (config_dir.join "server_events.toml")))) := by
  refine ⟨?_, ?_, ?_⟩ <;> intro h <;>
    simp [MutableAppState.new, MutableAppState.loadConfig, ConfigFile.from_path, h,
      ConfigFile.default]

/-- Claim C8, witness: the theorem applied to a disk with no config file,
one with an unreadable config file and one with a corrupt config file. -/
theorem c8_witness :
    MutableAppState.new freshDisk sampleDir = Except.ok { muted := MuteState.Unmuted } ∧
    MutableAppState.new unreadableDisk sampleDir =
      Except.error (StateError.ConfigLoad (sampleDir.join "server_events.toml")
        (SerError.FileOpen (sampleDir.join "server_events.toml") false)) ∧
    MutableAppState.new corruptDisk sampleDir =
      Except.error (StateError.ConfigLoad (sampleDir.join "server_events.toml")
        (SerError.Deserialize (sampleDir.join "server_events.toml"))) :=
  ⟨(c8_theorem freshDisk sampleDir).1 rfl,
   (c8_theorem unreadableDisk sampleDir).2.1 rfl,
   (c8_theorem corruptDisk sampleDir).2.2 rfl⟩

/-- Claim C9: loading a persisted document with `muted = next_boot` yields
in-memory `Unmuted`, and after re-syncing that reloaded state to disk a
second load still yields `Unmuted` — the normalization never reverts. -/
theorem c9_theorem (disk : Disk) (config_dir : FsPath)
    (h : lookupFile disk.files (config_dir.join "server_events.toml") =
      some (FileData.valid { muted := MuteState.NextBoot })) :
    MutableAppState.new disk config_dir = Except.ok { muted := MuteState.Unmuted } ∧
    (∀ disk' : Disk,
        ({ muted := MuteState.Unmuted } : MutableAppState).sync disk
            (config_dir.join "server_events.toml") = (disk', Except.ok ()) →
        MutableAppState.new disk' config_dir = Except.ok { muted := MuteState.Unmuted }) := by
  constructor
  · have := new_of_lookup_valid disk config_dir { muted := MuteState.NextBoot } h
    simpa [MuteState.normalizeNextBoot] using this
  · intro disk' hsy
    have hlook := sync_ok_lookup { muted := MuteState.Unmuted } disk
      (config_dir.join "server_events.toml") disk' hsy
    have := new_of_lookup_valid disk' config_dir { muted := MuteState.Unmuted } hlook
    simpa [MuteState.normalizeNextBoot] using this

/-- Claim C9, witness: the theorem applied to the concrete disk persisting
`next_boot` and to its concrete re-synced successor. -/
theorem c9_witness :
    MutableAppState.new nextBootDisk sampleDir = Except.ok { muted := MuteState.Unmuted } ∧
    MutableAppState.new syncedDisk sampleDir = Except.ok { muted := MuteState.Unmuted } :=
  ⟨(c9_theorem nextBootDisk sampleDir rfl).1,
   (c9_theorem nextBootDisk sampleDir rfl).2 syncedDisk rfl⟩

/-- Claim C10: for every menu event whose identifier is none of the
recognized literals `"3"`, `"4"`, `"5"`, `"6"`, `"7"`, the tray-event
handler leaves the store, the disk and the event-loop target unchanged —
no write-accessor call, no disk write, no loop-termination request. -/
theorem c10_theorem (app : AppState) (disk : Disk) (el : EventLoopWindowTarget) (ev : MenuEvent)
    (h3 : ev.id ≠ "3") (h4 : ev.id ≠ "4") (h5 : ev.id ≠ "5") (h6 : ev.id ≠ "6")
    (h7 : ev.id ≠ "7") :
    App.handle_tray_event app disk el ev = (app, disk, el) := by
  simp [App.handle_tray_event, h3, h4, h5, h6, h7]

/-- Claim C10, witness: the theorem applied to the concrete unknown
identifier `"99"`. -/
theorem c10_witness :
    App.handle_tray_event sampleApp freshDisk sampleTarget { id := "99" } =
      (sampleApp, freshDisk, sampleTarget) :=
  c10_theorem sampleApp freshDisk sampleTarget { id := "99" }
    (by decide) (by decide) (by decide) (by decide) (by decide)
